import Mathlib

/-!
A shallow embedding of the simulation and valuation engine of
TheFootballManager (`src/main.py`): the data model, the `TransferMarket`,
`MatchEngine` and `Analytics` classes, together with theorems settling the
specification claims about them.

Modelling conventions, applied uniformly:
* Numeric fields on player/team records are Python integers; the float
  arithmetic of the derived formulas is modelled exactly over `ℚ`.
* Python `int(x)` truncates toward zero: `pyInt`.
* Python exceptions (each `raise ValueError` site, the `ValueError` raised by
  `max()` on an empty sequence, the `ZeroDivisionError` raised by division,
  the `StopIteration` raised by a bare `next`) are modelled as `Except` or
  `Option` error results produced at the same program point as in the source.
* `random.randint` / `random.choice` draws are modelled by an explicit list
  of natural-number draws consumed left to right; a drawn value `d` selects
  index `d % len` from a sequence, and a kickoff minute is `1 + d % 90`,
  covering exactly the outcomes the Python generator can produce.
* `str.lower()` is modelled on the ASCII range by `pyLower`.
-/

namespace FootballManager

/-- Nested `stats` record of a player (`player['stats']` in `src/main.py`). -/
structure Stats where
  goals : Nat
  assists : Nat
  minutes_played : Nat
  shots_on_target : Nat
deriving Repr, DecidableEq

/-- A player record (an entry of `data['players']` in `src/main.py`). -/
structure Player where
  name : String
  team : String
  age : Int
  rating : Int
  position : String
  stats : Stats
deriving Repr, DecidableEq

/-- A team record (an entry of `data['teams']` in `src/main.py`). -/
structure Team where
  name : String
  league_position : Int
  points : Int
deriving Repr, DecidableEq

/-- The league data dictionary shared by the three engine classes. -/
structure LeagueData where
  teams : List Team
  players : List Player
deriving Repr, DecidableEq

/-- Python `str.lower()`, restricted to the ASCII range used by the data:
lowercase every character of the string. -/
def pyLower (s : String) : String := ⟨s.data.map Char.toLower⟩

/-- Python `int(x)` on a real value: truncation toward zero. -/
def pyInt (q : ℚ) : ℤ := if 0 ≤ q then ⌊q⌋ else -⌊-q⌋

/-- The failure modes of the engine, one constructor per `raise` site or
raising Python builtin in the covered code. `maxOfEmptySeq` is the
`ValueError` Python's `max()` raises on an empty sequence; `zeroDivision` is
Python's `ZeroDivisionError`. -/
inductive FMError where
  | playerNotFound
  | teamNotFound
  | noPlayers
  | maxOfEmptySeq
  | zeroDivision
deriving Repr, DecidableEq

/-- `TransferMarket.calculate_player_value` (src/main.py:26-37), in exact
rational arithmetic; `0.05` is `5/100`. -/
def calculate_player_value (player : Player) : ℤ :=
  let base_value : ℚ := (player.rating : ℚ) * 2000000
  let age_factor : ℚ := 1 - |26 - (player.age : ℚ)| * (5 / 100)
  let performance_factor : ℚ :=
    (player.stats.goals : ℚ) * 500000 + (player.stats.assists : ℚ) * 300000 +
      (player.stats.minutes_played : ℚ) / 90 * 100000
  pyInt (base_value * age_factor + performance_factor)

/-- The exact rational valuation total exactly as the specification words
it: `rating*2_000_000 * (1 - 0.05*|26 - age|) + goals*500_000 +
assists*300_000 + (minutes_played/90)*100_000`. Written from the
specification, to be compared with `calculate_player_value`. -/
def spec_value_total (player : Player) : ℚ :=
  (player.rating : ℚ) * 2000000 * (1 - (5 / 100) * |26 - (player.age : ℚ)|) +
    (player.stats.goals : ℚ) * 500000 + (player.stats.assists : ℚ) * 300000 +
    (player.stats.minutes_played : ℚ) / 90 * 100000

/-- The claimed result: the `floor` of the valuation total. -/
def spec_player_value_floor (player : Player) : ℤ := ⌊spec_value_total player⌋

/-- The specification formula with Python truncation in place of `floor`;
`calculate_player_value` is proved equal to this. -/
def spec_player_value_trunc (player : Player) : ℤ := pyInt (spec_value_total player)

/-- A completed transfer, as recorded in `transfer_history`. -/
structure TransferRecord where
  player : String
  from_team : String
  to_team : String
  fee : ℤ
  date : String
deriving Repr, DecidableEq

/-- State of the `TransferMarket` class: the shared league data plus the
market-owned `transfer_history` list. -/
structure TransferMarket where
  data : LeagueData
  transfer_history : List TransferRecord
deriving Repr, DecidableEq

/-- Replace the first element satisfying `pred` by its image under `f`: the
in-place mutation of the record a `next(...)` lookup returned. -/
def updateFirst (pred : α → Bool) (f : α → α) : List α → List α
  | [] => []
  | x :: l => if pred x then f x :: l else x :: updateFirst pred f l

/-- Case-insensitive player lookup,
`next((p for p in data['players'] if p['name'].lower() == name.lower()), None)`. -/
def findPlayer (d : LeagueData) (name : String) : Option Player :=
  d.players.find? (fun p => pyLower p.name == pyLower name)

/-- Case-insensitive team lookup over `data['teams']`. -/
def findTeam (d : LeagueData) (name : String) : Option Team :=
  d.teams.find? (fun t => pyLower t.name == pyLower name)

/-- The player-list mutation `player['team'] = new_team` performs, seen from
the shared list: the first player whose lowered name matches gets the raw
`new_team` spelling written into the `team` field. -/
def transferUpdate (player_name new_team : String) (l : List Player) : List Player :=
  updateFirst (fun p => pyLower p.name == pyLower player_name)
    (fun p => { p with team := new_team }) l

/-- `TransferMarket.transfer_player` (src/main.py:39-64). `today` stands for
`datetime.now().strftime('%Y-%m-%d')`. Python raises before any mutation on
a failed lookup, so the error branches return the market unchanged; on
success the found player's `team` field is set to the raw `new_team`
argument and the fee is computed from the already-mutated record. -/
def transfer_player (m : TransferMarket) (today player_name new_team : String) :
    Except FMError TransferRecord × TransferMarket :=
  match findPlayer m.data player_name with
  | none => (.error .playerNotFound, m)
  | some player =>
    match findTeam m.data new_team with
    | none => (.error .teamNotFound, m)
    | some _ =>
      let old_team := player.team
      let player' : Player := { player with team := new_team }
      let transfer_fee := calculate_player_value player'
      let transfer_record : TransferRecord :=
        { player := player.name, from_team := old_team, to_team := new_team,
          fee := transfer_fee, date := today }
      (.ok transfer_record,
        { data := { m.data with
            players := transferUpdate player_name new_team m.data.players },
          transfer_history := m.transfer_history ++ [transfer_record] })

/-- The roster filter used throughout the engine:
`[p for p in data['players'] if p['team'] == team_name]`. The comparison is
Python `==` on strings — exact and case-sensitive. -/
def rosterPlayers (d : LeagueData) (team_name : String) : List Player :=
  d.players.filter (fun p => p.team == team_name)

/-- `MatchEngine.calculate_team_strength` (src/main.py:71-78): mean rating of
the roster, `ValueError` when the roster is empty. -/
def calculate_team_strength (d : LeagueData) (team_name : String) : Except FMError ℚ :=
  let team_players := rosterPlayers d team_name
  if team_players.isEmpty then .error .noPlayers
  else .ok (((team_players.map (fun p => (p.rating : ℚ))).sum) / team_players.length)

/-- A goal event as built by `generate_match_events`. -/
structure MatchEvent where
  minute : Nat
  type : String
  team : String
  scorer : String
  assist : String
deriving Repr, DecidableEq

/-- `random.choice(seq)` driven by one draw `d`: the element at index
`d % len`; `none` on an empty sequence (Python raises `IndexError`). -/
def pyChoice (l : List α) (d : Nat) : Option α := l.get? (d % l.length)

/-- The rejection loop `assist = random.choice(roster); while assist == scorer:
assist = random.choice(roster)`, consuming one draw per attempt. `none` means
the finite draw list was exhausted without the loop ever accepting — in
particular, on a roster whose only member is the scorer no draw list of any
length lets the loop finish. Returns the accepted assist and the unconsumed
draws. -/
def drawAssist (roster : List Player) (scorer : Player) :
    List Nat → Option (Player × List Nat)
  | [] => none
  | d :: ds =>
    match pyChoice roster d with
    | none => none
    | some a => if a = scorer then drawAssist roster scorer ds else some (a, ds)

/-- One side's goal-generation loop in `generate_match_events`
(src/main.py:122-135 for the home side, 137-150 for the away side): for each
goal draw a minute (`1 + dm % 90` for `random.randint(1, 90)`), a scorer,
then an assist by rejection sampling. Returns the events in generation order
plus the unconsumed draws; `none` when the draw list runs out. -/
def genGoals (team_name : String) (roster : List Player) :
    Nat → List Nat → Option (List MatchEvent × List Nat)
  | 0, ds => some ([], ds)
  | _ + 1, [] => none
  | _ + 1, [_] => none
  | n + 1, dm :: dsc :: ds2 =>
    match pyChoice roster dsc with
    | none => none
    | some scorer =>
      match drawAssist roster scorer ds2 with
      | none => none
      | some (assist, ds3) =>
        match genGoals team_name roster n ds3 with
        | none => none
        | some (evs, ds4) =>
          some ({ minute := 1 + dm % 90, type := "goal", team := team_name,
                  scorer := scorer.name, assist := assist.name } :: evs, ds4)

/-- Insert an event into an already sorted list, after every event with an
equal or smaller minute: the insertion step of a stable sort by `minute`. -/
def insertByMinute (e : MatchEvent) : List MatchEvent → List MatchEvent
  | [] => [e]
  | f :: l => if e.minute ≤ f.minute then e :: f :: l else f :: insertByMinute e l

/-- Python's stable `events.sort(key=lambda x: x['minute'])`
(src/main.py:153) as a stable insertion sort. -/
def sortByMinute : List MatchEvent → List MatchEvent
  | [] => []
  | e :: l => insertByMinute e (sortByMinute l)

/-- `MatchEngine.generate_match_events` (src/main.py:115-154), driven by the
explicit draw list `ds`: home goals are generated first, then away goals,
then the combined list is stably sorted by minute. `none` when the draws run
out (in particular when a rejection loop can never accept). -/
def generate_match_events (d : LeagueData) (home_team away_team : String)
    (home_goals away_goals : Nat) (ds : List Nat) : Option (List MatchEvent) :=
  match genGoals home_team (rosterPlayers d home_team) home_goals ds with
  | none => none
  | some (hevs, ds1) =>
    match genGoals away_team (rosterPlayers d away_team) away_goals ds1 with
    | none => none
    | some (aevs, _) => some (sortByMinute (hevs ++ aevs))

/-- Increment the `goals` stat of a player record. -/
def incrGoals (p : Player) : Player :=
  { p with stats := { p.stats with goals := p.stats.goals + 1 } }

/-- Increment the `assists` stat of a player record. -/
def incrAssists (p : Player) : Player :=
  { p with stats := { p.stats with assists := p.stats.assists + 1 } }

/-- Processing of one event inside `MatchEngine.update_stats`
(src/main.py:158-166): for a goal event, find the scorer by exact name and
increment goals, then find the assister and increment assists. A failed bare
`next` (name not in the repository) raises `StopIteration`, modelled as
`none`. -/
def update_stats_event (players : List Player) (e : MatchEvent) :
    Option (List Player) :=
  if e.type == "goal" then
    match players.find? (fun p => p.name == e.scorer) with
    | none => none
    | some _ =>
      let players1 := updateFirst (fun p => p.name == e.scorer) incrGoals players
      match players1.find? (fun p => p.name == e.assist) with
      | none => none
      | some _ => some (updateFirst (fun p => p.name == e.assist) incrAssists players1)
  else some players

/-- `MatchEngine.update_stats` (src/main.py:156-166), folded over the event
list of a match result. -/
def update_stats (players : List Player) : List MatchEvent → Option (List Player)
  | [] => some players
  | e :: evs =>
    match update_stats_event players e with
    | none => none
    | some players' => update_stats players' evs

/-- The efficiency dictionary built by `Analytics.calculate_player_efficiency`. -/
structure Efficiency where
  goals_per_90 : ℚ
  assists_per_90 : ℚ
  goal_contributions : Nat
  shots_conversion : ℚ
deriving Repr, DecidableEq

/-- `Analytics.calculate_player_efficiency` (src/main.py:172-188). The
`minutes = 0` branch models the `ZeroDivisionError` Python's division raises
while building the first dictionary entry. -/
def calculate_player_efficiency (d : LeagueData) (player_name : String) :
    Except FMError Efficiency :=
  match findPlayer d player_name with
  | none => .error .playerNotFound
  | some player =>
    let stats := player.stats
    let minutes := stats.minutes_played
    if minutes = 0 then .error .zeroDivision
    else
      .ok { goals_per_90 := (stats.goals : ℚ) / minutes * 90,
            assists_per_90 := (stats.assists : ℚ) / minutes * 90,
            goal_contributions := stats.goals + stats.assists,
            shots_conversion :=
              if stats.shots_on_target > 0 then
                (stats.goals : ℚ) / stats.shots_on_target * 100
              else 0 }

/-- Python `max(seq, key=key)`: the first element attaining the maximum key,
`none` on an empty sequence (`ValueError: max() arg is an empty sequence`). -/
def pyMaxBy (key : α → Nat) : List α → Option α
  | [] => none
  | x :: l => some (l.foldl (fun best q => if key q > key best then q else best) x)

/-- The report dictionary built by `Analytics.generate_team_report`. -/
structure TeamReport where
  team_name : String
  league_position : Int
  points : Int
  top_scorer : Player
  top_assister : Player
  squad_age_average : ℚ
  squad_rating_average : ℚ
deriving Repr, DecidableEq

/-- `Analytics.generate_team_report` (src/main.py:190-208). The roster is
filtered case-sensitively against the canonical `team['name']`. Python
evaluates the dictionary entries in order, so on an empty roster the
`max(players, ...)` for `top_scorer` raises before any division: the empty
roster surfaces as `maxOfEmptySeq`, and there is no explicit empty-roster
guard in the source. -/
def generate_team_report (d : LeagueData) (team_name : String) :
    Except FMError TeamReport :=
  match findTeam d team_name with
  | none => .error .teamNotFound
  | some team =>
    let players := rosterPlayers d team.name
    match pyMaxBy (fun p => p.stats.goals) players,
          pyMaxBy (fun p => p.stats.assists) players with
    | some ts, some ta =>
      .ok { team_name := team.name, league_position := team.league_position,
            points := team.points, top_scorer := ts, top_assister := ta,
            squad_age_average := ((players.map (fun p => (p.age : ℚ))).sum) / players.length,
            squad_rating_average := ((players.map (fun p => (p.rating : ℚ))).sum) / players.length }
    | _, _ => .error .maxOfEmptySeq

/-! ### Concrete fixtures used by witnesses and counterexamples -/

/-- Fixture: a 66-year-old rating-1 player with a single minute played; its
exact valuation total is `-17990000/9`, negative and non-integral. -/
def agedPlayer : Player :=
  { name := "Vet", team := "Old FC", age := 66, rating := 1, position := "ST",
    stats := { goals := 0, assists := 0, minutes_played := 1, shots_on_target := 0 } }

/-- Fixture: a peak-age player with a non-negative valuation total. -/
def peakPlayer : Player :=
  { name := "Peak", team := "Arsenal", age := 26, rating := 50, position := "ST",
    stats := { goals := 2, assists := 1, minutes_played := 180, shots_on_target := 4 } }

/-- Fixture: a midfielder whose record starts at team `"Chelsea"`. -/
def bob : Player :=
  { name := "Bob", team := "Chelsea", age := 26, rating := 50, position := "MF",
    stats := { goals := 0, assists := 0, minutes_played := 90, shots_on_target := 0 } }

/-- Fixture: a team whose canonical spelling is `"Arsenal"`. -/
def arsenal : Team := { name := "Arsenal", league_position := 1, points := 10 }

/-- Fixture: a one-player, one-team transfer market. -/
def egMarket : TransferMarket :=
  { data := { teams := [arsenal], players := [bob] }, transfer_history := [] }

/-- Fixture: a team with zero rostered players. -/
def ghostTeam : Team := { name := "Ghost FC", league_position := 20, points := 0 }

/-- Fixture: a `"Trio FC"` player of the given name and rating. -/
def trioPlayer (nm : String) (r : ℤ) : Player :=
  { name := nm, team := "Trio FC", age := 25, rating := r, position := "MF",
    stats := { goals := 0, assists := 0, minutes_played := 0, shots_on_target := 0 } }

/-- Fixture: the team whose roster holds the three trio players. -/
def trioTeam : Team := { name := "Trio FC", league_position := 2, points := 20 }

/-- Fixture: a league with an empty-rostered team and a three-player team
rated 70, 80, 90. -/
def egLeague : LeagueData :=
  { teams := [ghostTeam, trioTeam],
    players := [trioPlayer "P1" 70, trioPlayer "P2" 80, trioPlayer "P3" 90] }

/-- Fixture: `bob`'s record with its `team` field at the canonical
`"Arsenal"` spelling. -/
def bobArs : Player := { bob with team := "Arsenal" }

/-- Fixture: a market whose only player is rostered at `"Arsenal"`. -/
def egMarketArs : TransferMarket :=
  { data := { teams := [arsenal], players := [bobArs] }, transfer_history := [] }

/-- Fixture: the market after transferring `"bob"` to the spelling
`"ARSENAL"`. -/
def egMarketAfter : TransferMarket :=
  (transfer_player egMarketArs "2026-01-01" "bob" "ARSENAL").2

/-- Fixture: a player who is the only member of the `"Solo FC"` roster. -/
def soloPlayer : Player :=
  { name := "Only", team := "Solo FC", age := 24, rating := 60, position := "ST",
    stats := { goals := 0, assists := 0, minutes_played := 0, shots_on_target := 0 } }

/-- Fixture: the team of the single-player roster. -/
def soloTeam : Team := { name := "Solo FC", league_position := 9, points := 5 }

/-- Fixture: a league whose only roster holds exactly one player. -/
def soloLeague : LeagueData := { teams := [soloTeam], players := [soloPlayer] }

/-- Fixture: a player of the two-a-side league. -/
def pairPlayer (nm tm : String) : Player :=
  { name := nm, team := tm, age := 24, rating := 70, position := "MF",
    stats := { goals := 0, assists := 0, minutes_played := 90, shots_on_target := 1 } }

/-- Fixture: a league with two players on each side. -/
def pairLeague : LeagueData :=
  { teams := [ { name := "Home FC", league_position := 1, points := 3 },
               { name := "Away FC", league_position := 2, points := 1 } ],
    players := [pairPlayer "H1" "Home FC", pairPlayer "H2" "Home FC",
                pairPlayer "A1" "Away FC", pairPlayer "A2" "Away FC"] }

/-- Fixture: the home-side events the draws `[5, 0, 1, 7, 1, 0]` generate. -/
def pairHomeEvents : List MatchEvent :=
  [{ minute := 6, type := "goal", team := "Home FC", scorer := "H1", assist := "H2" }]

/-- Fixture: the away-side events those draws generate next. -/
def pairAwayEvents : List MatchEvent :=
  [{ minute := 8, type := "goal", team := "Away FC", scorer := "A2", assist := "A1" }]

/-- Total of the `goals` fields over the shared player list. -/
def sumGoals (l : List Player) : Nat := (l.map (fun p => p.stats.goals)).sum

/-- Total of the `assists` fields over the shared player list. -/
def sumAssists (l : List Player) : Nat := (l.map (fun p => p.stats.assists)).sum

/-- Fixture: the two-a-side league's players after committing the two fixture
goal events: H1 and A2 each gain a goal, H2 and A1 each gain an assist. -/
def pairPlayersAfter : List Player :=
  [{ pairPlayer "H1" "Home FC" with stats :=
      { goals := 1, assists := 0, minutes_played := 90, shots_on_target := 1 } },
   { pairPlayer "H2" "Home FC" with stats :=
      { goals := 0, assists := 1, minutes_played := 90, shots_on_target := 1 } },
   { pairPlayer "A1" "Away FC" with stats :=
      { goals := 0, assists := 1, minutes_played := 90, shots_on_target := 1 } },
   { pairPlayer "A2" "Away FC" with stats :=
      { goals := 1, assists := 0, minutes_played := 90, shots_on_target := 1 } }]

/-! ### The claims -/

/-- Helper: the code's valuation is the Python truncation of the exact
valuation total of the specification formula. -/
theorem calculate_player_value_eq_trunc (p : Player) :
    calculate_player_value p = pyInt (spec_value_total p) := by
  show pyInt ((p.rating : ℚ) * 2000000 * (1 - |26 - (p.age : ℚ)| * (5 / 100)) +
      ((p.stats.goals : ℚ) * 500000 + (p.stats.assists : ℚ) * 300000 +
        (p.stats.minutes_played : ℚ) / 90 * 100000)) = pyInt (spec_value_total p)
  unfold spec_value_total
  congr 1
  ring

/-- Helper: the exact valuation total of `agedPlayer`. -/
theorem agedPlayer_total : spec_value_total agedPlayer = -17990000 / 9 := by
  simp only [spec_value_total, agedPlayer]
  rw [show ((66 : ℤ) : ℚ) = 66 from by norm_num]
  rw [show |(26 : ℚ) - 66| = 40 from by rw [abs_of_nonpos] <;> norm_num]
  norm_num

/-- C1, counterexample: the claim says the value is the `floor` of the
valuation total, but on `agedPlayer` (total `-17990000/9`) the code returns
`-1998888` — truncation toward zero — while the claimed `floor` gives
`-1998889`. -/
theorem c1_counterexample :
    calculate_player_value agedPlayer = -1998888 ∧
    spec_player_value_floor agedPlayer = -1998889 := by
  have h := calculate_player_value_eq_trunc agedPlayer
  rw [agedPlayer_total] at h
  constructor
  · rw [h]
    unfold pyInt
    rw [if_neg (by norm_num)]
    norm_num
  · show (⌊spec_value_total agedPlayer⌋ : ℤ) = -1998889
    rw [agedPlayer_total]
    norm_num

/-- C1 (amended): `calculate_player_value` returns the truncation toward
zero (Python `int`) of the exact total `rating*2_000_000*(1 - 0.05*|26 -
age|) + goals*500_000 + assists*300_000 + (minutes_played/90)*100_000`; the
age factor is not clamped, and whenever the total is non-negative the result
agrees with the claimed `floor`. The embedded function is pure, so the call
mutates neither the player nor the repository. -/
theorem c1_player_value_is_truncated_total (p : Player) :
    calculate_player_value p = spec_player_value_trunc p ∧
    (0 ≤ spec_value_total p → calculate_player_value p = spec_player_value_floor p) := by
  refine ⟨calculate_player_value_eq_trunc p, fun h => ?_⟩
  rw [calculate_player_value_eq_trunc p]
  show pyInt (spec_value_total p) = ⌊spec_value_total p⌋
  unfold pyInt
  rw [if_pos h]

/-- C1, witness: on `peakPlayer` the amended theorem applies — the total is
non-negative, and the code value agrees with the claimed `floor`. -/
theorem c1_witness :
    calculate_player_value peakPlayer = spec_player_value_floor peakPlayer :=
  (c1_player_value_is_truncated_total peakPlayer).2 (by
    simp only [spec_value_total, peakPlayer]
    rw [show ((26 : ℤ) : ℚ) = 26 from by norm_num]
    norm_num)

/-- Helper: the valuation reads only rating, age and stats — never the
`team` field — so it is invariant under a team change. -/
theorem calculate_player_value_team_invariant (p : Player) (t : String) :
    calculate_player_value { p with team := t } = calculate_player_value p := by
  cases p; rfl

/-- C2, counterexample: the claim says a successful transfer stores the new
team's canonical name on the player; transferring `"bob"` to `"ARSENAL"`
(canonical spelling `"Arsenal"`) stores the caller's raw spelling
`"ARSENAL"` instead. -/
theorem c2_counterexample :
    ((transfer_player egMarket "2026-01-01" "bob" "ARSENAL").2.data.players.map
        Player.team) = ["ARSENAL"] ∧
    egMarket.data.teams.map Team.name = ["Arsenal"] ∧
    ("ARSENAL" : String) ≠ "Arsenal" := by
  refine ⟨by decide, rfl, by decide⟩

/-- C2 (amended): on a successful transfer (both lookups succeed) the fee is
`calculate_player_value` of the player's pre-transfer record (the valuation
never reads the mutated `team` field, and age and stats are unchanged), the
found player's `team` field is set to the caller's raw spelling `new_team`
(not the canonical name stored on the `Team` record), and the returned
`TransferRecord` — with that fee and today's date — is appended to
`transfer_history`. -/
theorem c2_transfer_success (m : TransferMarket) (today pn tn : String)
    (player : Player) (team : Team)
    (hp : findPlayer m.data pn = some player)
    (ht : findTeam m.data tn = some team) :
    transfer_player m today pn tn =
      (.ok { player := player.name, from_team := player.team, to_team := tn,
             fee := calculate_player_value player, date := today },
       { data := { m.data with players := transferUpdate pn tn m.data.players },
         transfer_history := m.transfer_history ++
           [{ player := player.name, from_team := player.team, to_team := tn,
              fee := calculate_player_value player, date := today }] }) := by
  unfold transfer_player
  rw [hp, ht]
  simp only [calculate_player_value_team_invariant]

/-- C2, witness: the amended theorem applied to the concrete market. -/
theorem c2_witness :
    transfer_player egMarket "2026-01-01" "bob" "ARSENAL" =
      (.ok { player := bob.name, from_team := bob.team, to_team := "ARSENAL",
             fee := calculate_player_value bob, date := "2026-01-01" },
       { data := { egMarket.data with
            players := transferUpdate "bob" "ARSENAL" egMarket.data.players },
         transfer_history := egMarket.transfer_history ++
           [{ player := bob.name, from_team := bob.team, to_team := "ARSENAL",
              fee := calculate_player_value bob, date := "2026-01-01" }] }) :=
  c2_transfer_success egMarket "2026-01-01" "bob" "ARSENAL" bob arsenal
    (by decide) (by decide)

/-- C5: `transfer_player` is atomic on failure — when either lookup misses,
the call returns a NotFound error and the whole market (every player and
team record, and the transfer history) is exactly as before. -/
theorem c5_transfer_atomic_on_failure (m : TransferMarket) (today pn tn : String)
    (e : FMError) (m' : TransferMarket)
    (h : (transfer_player m today pn tn) = (.error e, m')) : m' = m := by
  unfold transfer_player at h
  split at h
  · injection h with h1 h2; exact h2.symm
  · split at h
    · injection h with h1 h2; exact h2.symm
    · injection h with h1 h2; cases h1

/-- C5, witness: a transfer of an unknown player fails and leaves the
concrete market untouched. -/
theorem c5_witness : (transfer_player egMarket "2026-01-01" "Nobody" "Arsenal").2 = egMarket :=
  c5_transfer_atomic_on_failure egMarket "2026-01-01" "Nobody" "Arsenal"
    .playerNotFound (transfer_player egMarket "2026-01-01" "Nobody" "Arsenal").2
    rfl

/-- C4: on the league whose team `"Ghost FC"` has zero rostered players,
`calculate_team_strength` fails through its explicit `noPlayers` guard, as
claimed, and an unknown team name makes `generate_team_report` fail with
NotFound, as claimed; but `generate_team_report` on the empty roster does
not fail through an explicit `EmptyRoster` guard — the error that surfaces
is the `ValueError` Python's `max()` raises on the empty roster sequence.
On the non-empty `"Trio FC"` roster the strength is the arithmetic mean
`(70+80+90)/3 = 80`, as claimed. -/
theorem c4_empty_roster_errors :
    calculate_team_strength egLeague "Ghost FC" = .error .noPlayers ∧
    generate_team_report egLeague "Ghost FC" = .error .maxOfEmptySeq ∧
    generate_team_report egLeague "Atlantis" = .error .teamNotFound ∧
    calculate_team_strength egLeague "Trio FC" = .ok 80 := by
  refine ⟨rfl, rfl, rfl, ?_⟩
  have h : calculate_team_strength egLeague "Trio FC" =
      .ok ((((70 : ℤ) : ℚ) + (((80 : ℤ) : ℚ) + (((90 : ℤ) : ℚ) + 0))) /
        ((3 : ℕ) : ℚ)) := rfl
  rw [h]
  congr 1
  push_cast
  norm_num

/-- C10: roster membership is exact and case-sensitive — a player is in the
roster used by strength, event generation and reports iff the `team` field
equals the filter name verbatim — while player and team lookups compare
lowercased names. Consequently, after `transfer_player` stores the caller's
spelling `"ARSENAL"`, the player still resolves by case-insensitive lookup
and the team `"Arsenal"` still resolves, yet the `"Arsenal"` roster is empty
and team strength fails with `noPlayers`. -/
theorem c10_roster_case_sensitive :
    (∀ (d : LeagueData) (n : String) (p : Player),
        p ∈ rosterPlayers d n ↔ p ∈ d.players ∧ p.team = n) ∧
    findPlayer egMarketAfter.data "BOB" = some { bobArs with team := "ARSENAL" } ∧
    findTeam egMarketAfter.data "arsenal" = some arsenal ∧
    rosterPlayers egMarketAfter.data "Arsenal" = [] ∧
    calculate_team_strength egMarketAfter.data "Arsenal" = .error .noPlayers := by
  refine ⟨?_, by decide, by decide, by decide, rfl⟩
  intro d n p
  simp [rosterPlayers, List.mem_filter]

/-- An accepted `random.choice` outcome is a member of the sequence. -/
theorem pyChoice_mem {l : List α} {d : Nat} {a : α} (h : pyChoice l d = some a) :
    a ∈ l :=
  List.get?_mem h

/-- The rejection loop only ever accepts an assist distinct from the scorer
and drawn from the roster. -/
theorem drawAssist_spec {roster : List Player} {scorer a : Player}
    {ds ds' : List Nat} (h : drawAssist roster scorer ds = some (a, ds')) :
    a ≠ scorer ∧ a ∈ roster := by
  induction ds with
  | nil => simp [drawAssist] at h
  | cons d ds ih =>
    cases hc : pyChoice roster d with
    | none => exact absurd h (by simp [drawAssist, hc])
    | some b =>
      simp only [drawAssist, hc] at h
      by_cases hb : b = scorer
      · rw [if_pos hb] at h; exact ih h
      · rw [if_neg hb] at h
        simp only [Option.some.injEq, Prod.mk.injEq] at h
        obtain ⟨rfl, rfl⟩ := h
        exact ⟨hb, pyChoice_mem hc⟩

/-- On a one-player roster the rejection loop never accepts: every draw
returns the scorer itself, for any draw list. -/
theorem drawAssist_singleton (p : Player) (ds : List Nat) :
    drawAssist [p] p ds = none := by
  induction ds with
  | nil => rfl
  | cons d ds ih =>
    have hc : pyChoice [p] d = some p := by simp [pyChoice, Nat.mod_one]
    simp [drawAssist, hc, ih]

/-- With at least one goal to attribute, generation over a single-player
roster returns nothing for every draw list: the rejection loop can never
accept. -/
theorem genGoals_singleton (t : String) (p : Player) (n : Nat) (ds : List Nat) :
    genGoals t [p] (n + 1) ds = none := by
  cases ds with
  | nil => rfl
  | cons dm ds1 =>
    cases ds1 with
    | nil => rfl
    | cons dsc ds2 =>
      have hc : pyChoice [p] dsc = some p := by simp [pyChoice, Nat.mod_one]
      simp [genGoals, hc, drawAssist_singleton]

/-- Every event built by one side's generation loop has type goal, the
side's team name, a minute in `[1, 90]`, and a scorer and an assist that are
two roster members with `assist ≠ scorer` as records. -/
theorem genGoals_events {t : String} {roster : List Player} :
    ∀ {n : Nat} {ds ds' : List Nat} {evs : List MatchEvent},
      genGoals t roster n ds = some (evs, ds') → ∀ e ∈ evs,
        e.type = "goal" ∧ e.team = t ∧ 1 ≤ e.minute ∧ e.minute ≤ 90 ∧
        ∃ s a, s ∈ roster ∧ a ∈ roster ∧ a ≠ s ∧
          e.scorer = s.name ∧ e.assist = a.name := by
  intro n
  induction n with
  | zero =>
    intro ds ds' evs h e he
    simp only [genGoals, Option.some.injEq, Prod.mk.injEq] at h
    obtain ⟨rfl, rfl⟩ := h
    cases he
  | succ n ih =>
    intro ds ds' evs h e he
    cases ds with
    | nil => exact absurd h (by simp [genGoals])
    | cons dm ds1 =>
      cases ds1 with
      | nil => exact absurd h (by simp [genGoals])
      | cons dsc ds2 =>
        cases hc : pyChoice roster dsc with
        | none => exact absurd h (by simp [genGoals, hc])
        | some scorer =>
          cases hda : drawAssist roster scorer ds2 with
          | none => exact absurd h (by simp [genGoals, hc, hda])
          | some pr =>
            obtain ⟨asst, ds3⟩ := pr
            cases hg : genGoals t roster n ds3 with
            | none => exact absurd h (by simp [genGoals, hc, hda, hg])
            | some pr2 =>
              obtain ⟨evs0, ds4⟩ := pr2
              simp only [genGoals, hc, hda, hg, Option.some.injEq,
                Prod.mk.injEq] at h
              obtain ⟨rfl, rfl⟩ := h
              rcases List.mem_cons.1 he with rfl | htail
              · refine ⟨rfl, rfl, Nat.le_add_right 1 _, ?_, scorer, asst,
                  pyChoice_mem hc, (drawAssist_spec hda).2, (drawAssist_spec hda).1,
                  rfl, rfl⟩
                have := Nat.mod_lt dm (show 0 < 90 by norm_num)
                show 1 + dm % 90 ≤ 90
                omega
              · exact ih hg e htail

/-- Membership in an insertion step. -/
theorem mem_insertByMinute {e a : MatchEvent} {l : List MatchEvent} :
    a ∈ insertByMinute e l ↔ a = e ∨ a ∈ l := by
  induction l with
  | nil => simp [insertByMinute]
  | cons f l ih =>
    rw [insertByMinute]
    by_cases h : e.minute ≤ f.minute
    · rw [if_pos h]
      simp [List.mem_cons, or_comm, or_left_comm]
    · rw [if_neg h]
      simp only [List.mem_cons, ih]
      tauto

/-- Membership is preserved by the stable sort. -/
theorem mem_sortByMinute {a : MatchEvent} {l : List MatchEvent} :
    a ∈ sortByMinute l ↔ a ∈ l := by
  induction l with
  | nil => simp [sortByMinute]
  | cons e l ih =>
    rw [sortByMinute]
    simp [mem_insertByMinute, ih]

/-- Inserting into a minute-sorted list keeps it minute-sorted. -/
theorem sorted_insertByMinute {e : MatchEvent} {l : List MatchEvent}
    (h : l.Pairwise (fun a b => a.minute ≤ b.minute)) :
    (insertByMinute e l).Pairwise (fun a b => a.minute ≤ b.minute) := by
  induction l with
  | nil => simp [insertByMinute]
  | cons f l ih =>
    rcases List.pairwise_cons.1 h with ⟨hf, hl⟩
    rw [insertByMinute]
    by_cases hef : e.minute ≤ f.minute
    · rw [if_pos hef]
      refine List.pairwise_cons.2 ⟨?_, h⟩
      intro b hb
      rcases List.mem_cons.1 hb with rfl | hb
      · exact hef
      · exact le_trans hef (hf b hb)
    · rw [if_neg hef]
      refine List.pairwise_cons.2 ⟨?_, ih hl⟩
      intro b hb
      rcases mem_insertByMinute.1 hb with rfl | hb
      · exact le_of_not_le hef
      · exact hf b hb

/-- The stable sort output is sorted by minute, non-strictly. -/
theorem sorted_sortByMinute (l : List MatchEvent) :
    (sortByMinute l).Pairwise (fun a b => a.minute ≤ b.minute) := by
  induction l with
  | nil => exact List.Pairwise.nil
  | cons e l ih =>
    rw [sortByMinute]
    exact sorted_insertByMinute ih

/-- Stability of the insertion step: every event the insertion walks past
has a strictly smaller minute, so at any fixed minute the inserted event
lands after the events already present. -/
theorem filter_insertByMinute (e : MatchEvent) (l : List MatchEvent) (m : Nat) :
    (insertByMinute e l).filter (fun x => x.minute == m) =
      if e.minute = m then e :: l.filter (fun x => x.minute == m)
      else l.filter (fun x => x.minute == m) := by
  induction l with
  | nil =>
    by_cases hem : e.minute = m
    · rw [if_pos hem]
      simp [insertByMinute, hem]
    · rw [if_neg hem]
      simp [insertByMinute, hem]
  | cons f l ih =>
    rw [insertByMinute]
    by_cases hef : e.minute ≤ f.minute
    · rw [if_pos hef]
      by_cases hem : e.minute = m
      · rw [if_pos hem]
        simp [List.filter_cons, hem]
      · rw [if_neg hem]
        simp [List.filter_cons, hem]
    · rw [if_neg hef]
      by_cases hem : e.minute = m
      · have hfm : f.minute ≠ m := by omega
        rw [if_pos hem]
        simp [List.filter_cons, ih, hem, hfm]
      · rw [if_neg hem]
        simp [List.filter_cons, ih, hem]

/-- Stability of the sort: at every fixed minute, the sorted sequence lists
the events in their original relative order. -/
theorem filter_sortByMinute (l : List MatchEvent) (m : Nat) :
    (sortByMinute l).filter (fun x => x.minute == m) =
      l.filter (fun x => x.minute == m) := by
  induction l with
  | nil => rfl
  | cons e l ih =>
    rw [sortByMinute, filter_insertByMinute]
    by_cases hem : e.minute = m
    · rw [if_pos hem, ih, List.filter_cons, if_pos (by simp [hem])]
    · rw [if_neg hem, ih, List.filter_cons, if_neg (by simp [hem])]

/-- C3: the claim mandates failing with `InsufficientRoster` after boundedly
many retries when a scoring side's roster has exactly one player and that
side gets at least one goal. The code has no such failure: its rejection
loop rejects the only possible draw every time, so for every finite draw
list — however long — the generation completes nothing. This is the
unbounded-loop behavior the claim forbids. -/
theorem c3_singleton_roster_loops (d : LeagueData) (home_team away_team : String)
    (home_goals away_goals : Nat) (p : Player)
    (hcase : (rosterPlayers d home_team = [p] ∧ 1 ≤ home_goals) ∨
      (rosterPlayers d away_team = [p] ∧ 1 ≤ away_goals)) :
    ∀ ds : List Nat,
      generate_match_events d home_team away_team home_goals away_goals ds = none := by
  intro ds
  rcases hcase with ⟨hr, hg⟩ | ⟨hr, hg⟩
  · obtain ⟨n, rfl⟩ := Nat.exists_eq_add_of_le hg
    unfold generate_match_events
    rw [hr, Nat.add_comm 1 n, genGoals_singleton]
  · cases hh : genGoals home_team (rosterPlayers d home_team) home_goals ds with
    | none => simp [generate_match_events, hh]
    | some pr =>
      obtain ⟨hevs, ds1⟩ := pr
      obtain ⟨n, rfl⟩ := Nat.exists_eq_add_of_le hg
      have hawayeq : genGoals away_team (rosterPlayers d away_team) (1 + n) ds1 = none := by
        rw [hr, Nat.add_comm 1 n, genGoals_singleton]
      simp [generate_match_events, hh, hawayeq]

/-- C3, witness: one goal for the single-player side, a five-draw list — the
generation cannot complete. -/
theorem c3_witness :
    generate_match_events soloLeague "Solo FC" "Away FC" 1 0 [0, 0, 0, 0, 0] = none :=
  c3_singleton_roster_loops soloLeague "Solo FC" "Away FC" 1 0 soloPlayer
    (Or.inl ⟨by decide, by decide⟩) [0, 0, 0, 0, 0]

/-- Helper: with pairwise-distinct player names, every generated event of a
side names distinct scorer and assist strings, because the rejection loop
accepts only a record distinct from the scorer's and distinct records carry
distinct names. -/
theorem genGoals_scorer_ne_assist {d : LeagueData} {t tn : String} {n : Nat}
    {ds ds' : List Nat} {evs : List MatchEvent}
    (hnames : (d.players.map Player.name).Nodup)
    (h : genGoals t (rosterPlayers d tn) n ds = some (evs, ds'))
    {e : MatchEvent} (he : e ∈ evs) : e.scorer ≠ e.assist := by
  obtain ⟨-, -, -, -, s, a, hs, ha, hne, hes, hea⟩ := genGoals_events h e he
  rw [hes, hea]
  intro hsa
  exact hne (List.inj_on_of_nodup_map hnames
    (List.mem_filter.1 ha).1 (List.mem_filter.1 hs).1 hsa.symm)

/-- C6: when the repository's player names are pairwise distinct (names are
the player identity) and each scoring side's roster holds at least two
players, every event of a completed generation has a scorer different from
its assist. -/
theorem c6_scorer_ne_assist (d : LeagueData) (home_team away_team : String)
    (home_goals away_goals : Nat) (ds : List Nat) (evs : List MatchEvent)
    (hnames : (d.players.map Player.name).Nodup)
    (hhome : 2 ≤ (rosterPlayers d home_team).length)
    (haway : 2 ≤ (rosterPlayers d away_team).length)
    (h : generate_match_events d home_team away_team home_goals away_goals ds =
      some evs) :
    ∀ e ∈ evs, e.scorer ≠ e.assist := by
  intro e he
  cases hh : genGoals home_team (rosterPlayers d home_team) home_goals ds with
  | none => exact absurd h (by simp [generate_match_events, hh])
  | some pr =>
    obtain ⟨hevs, ds1⟩ := pr
    cases ha : genGoals away_team (rosterPlayers d away_team) away_goals ds1 with
    | none => exact absurd h (by simp [generate_match_events, hh, ha])
    | some pr2 =>
      obtain ⟨aevs, ds2⟩ := pr2
      have hev : evs = sortByMinute (hevs ++ aevs) := by
        have h' := h
        simp only [generate_match_events, hh, ha, Option.some.injEq] at h'
        exact h'.symm
      subst hev
      rcases List.mem_append.1 (mem_sortByMinute.1 he) with hm | hm
      · exact genGoals_scorer_ne_assist hnames hh hm
      · exact genGoals_scorer_ne_assist hnames ha hm

/-- C6, witness: on the two-a-side league with draws `[5, 0, 1, 7, 1, 0]`,
the home goal's scorer and assist differ. -/
theorem c6_witness :
    ({ minute := 6, type := "goal", team := "Home FC", scorer := "H1",
       assist := "H2" } : MatchEvent).scorer ≠
      ({ minute := 6, type := "goal", team := "Home FC", scorer := "H1",
         assist := "H2" } : MatchEvent).assist :=
  c6_scorer_ne_assist pairLeague "Home FC" "Away FC" 1 1 [5, 0, 1, 7, 1, 0]
    (sortByMinute (pairHomeEvents ++ pairAwayEvents))
    (by decide) (by decide) (by decide) (by decide)
    { minute := 6, type := "goal", team := "Home FC", scorer := "H1", assist := "H2" }
    (by decide)

/-- C7: a completed generation returns exactly the stable minute-sort of the
generated events — home side's events generated before the away side's, each
side's in insertion order. The output is sorted by minute non-decreasing; at
every fixed minute the events keep generation order (the sorted sequence
filtered at each minute equals the generation-order sequence so filtered);
every minute lies in `[1, 90]`; and the output is a function of the draw
list, so a fixed draw sequence reproduces the output exactly. -/
theorem c7_events_sorted_stable_bounded (d : LeagueData)
    (home_team away_team : String) (home_goals away_goals : Nat)
    (ds ds1 ds2 : List Nat) (hevs aevs : List MatchEvent)
    (hh : genGoals home_team (rosterPlayers d home_team) home_goals ds =
      some (hevs, ds1))
    (ha : genGoals away_team (rosterPlayers d away_team) away_goals ds1 =
      some (aevs, ds2)) :
    generate_match_events d home_team away_team home_goals away_goals ds =
      some (sortByMinute (hevs ++ aevs)) ∧
    (sortByMinute (hevs ++ aevs)).Pairwise (fun a b => a.minute ≤ b.minute) ∧
    (∀ m : Nat, (sortByMinute (hevs ++ aevs)).filter (fun e => e.minute == m) =
      (hevs ++ aevs).filter (fun e => e.minute == m)) ∧
    (∀ e ∈ sortByMinute (hevs ++ aevs), 1 ≤ e.minute ∧ e.minute ≤ 90) ∧
    (∀ ds' : List Nat, ds' = ds →
      generate_match_events d home_team away_team home_goals away_goals ds' =
        generate_match_events d home_team away_team home_goals away_goals ds) := by
  refine ⟨?_, sorted_sortByMinute _, fun m => filter_sortByMinute _ m, ?_, ?_⟩
  · simp [generate_match_events, hh, ha]
  · intro e he
    rcases List.mem_append.1 (mem_sortByMinute.1 he) with hm | hm
    · obtain ⟨-, -, h1, h2, -⟩ := genGoals_events hh e hm
      exact ⟨h1, h2⟩
    · obtain ⟨-, -, h1, h2, -⟩ := genGoals_events ha e hm
      exact ⟨h1, h2⟩
  · intro ds' hds
    rw [hds]

/-- C7, witness: the two-a-side league with draws `[5, 0, 1, 7, 1, 0]`
returns exactly the stable sort of its generated events. -/
theorem c7_witness :
    generate_match_events pairLeague "Home FC" "Away FC" 1 1 [5, 0, 1, 7, 1, 0] =
      some (sortByMinute (pairHomeEvents ++ pairAwayEvents)) :=
  (c7_events_sorted_stable_bounded pairLeague "Home FC" "Away FC" 1 1
    [5, 0, 1, 7, 1, 0] [7, 1, 0] [] pairHomeEvents pairAwayEvents
    (by decide) (by decide)).1

/-- Helper: updating the first matching record with a mutation that adds `c`
to a tracked field adds `c` to the field's total, provided a match exists. -/
theorem sum_map_updateFirst_add {pred : Player → Bool} {k : Player → Nat}
    {f : Player → Player} {c : Nat} (hf : ∀ p, k (f p) = k p + c) :
    ∀ {l : List Player}, (∃ x ∈ l, pred x = true) →
      ((updateFirst pred f l).map k).sum = (l.map k).sum + c := by
  intro l
  induction l with
  | nil => rintro ⟨x, hx, -⟩; cases hx
  | cons p l ih =>
    intro hex
    by_cases hp : pred p = true
    · rw [updateFirst, if_pos hp]
      simp only [List.map_cons, List.sum_cons, hf]
      omega
    · rw [updateFirst, if_neg hp]
      obtain ⟨x, hx, hpx⟩ := hex
      rcases List.mem_cons.1 hx with rfl | hx
      · exact absurd hpx hp
      · simp only [List.map_cons, List.sum_cons, ih ⟨x, hx, hpx⟩]
        omega

/-- Helper: updating the first matching record with a mutation that leaves a
tracked field unchanged leaves the field's total unchanged. -/
theorem sum_map_updateFirst_eq {pred : Player → Bool} {k : Player → Nat}
    {f : Player → Player} (hf : ∀ p, k (f p) = k p) :
    ∀ (l : List Player),
      ((updateFirst pred f l).map k).sum = (l.map k).sum := by
  intro l
  induction l with
  | nil => rfl
  | cons p l ih =>
    by_cases hp : pred p = true
    · rw [updateFirst, if_pos hp]
      simp only [List.map_cons, List.sum_cons, hf]
    · rw [updateFirst, if_neg hp]
      simp only [List.map_cons, List.sum_cons, ih]

/-- Helper: a goals increment on the first match adds 1 to the goals total. -/
theorem sumGoals_updateFirst_incrGoals {pred : Player → Bool} {l : List Player}
    (hex : ∃ x ∈ l, pred x = true) :
    sumGoals (updateFirst pred incrGoals l) = sumGoals l + 1 := by
  unfold sumGoals
  exact sum_map_updateFirst_add (fun p => rfl) hex

/-- Helper: an assists increment never changes the goals total. -/
theorem sumGoals_updateFirst_incrAssists (pred : Player → Bool) (l : List Player) :
    sumGoals (updateFirst pred incrAssists l) = sumGoals l := by
  unfold sumGoals
  refine sum_map_updateFirst_eq ?_ l
  intro p
  rfl

/-- Helper: a goals increment never changes the assists total. -/
theorem sumAssists_updateFirst_incrGoals (pred : Player → Bool) (l : List Player) :
    sumAssists (updateFirst pred incrGoals l) = sumAssists l := by
  unfold sumAssists
  refine sum_map_updateFirst_eq ?_ l
  intro p
  rfl

/-- Helper: an assists increment on the first match adds 1 to the assists
total. -/
theorem sumAssists_updateFirst_incrAssists {pred : Player → Bool} {l : List Player}
    (hex : ∃ x ∈ l, pred x = true) :
    sumAssists (updateFirst pred incrAssists l) = sumAssists l + 1 := by
  unfold sumAssists
  exact sum_map_updateFirst_add (fun p => rfl) hex

/-- Helper: one committed goal event adds exactly 1 to the goals total and
exactly 1 to the assists total. -/
theorem update_stats_event_sums {players players' : List Player} {e : MatchEvent}
    (htype : e.type = "goal")
    (h : update_stats_event players e = some players') :
    sumGoals players' = sumGoals players + 1 ∧
    sumAssists players' = sumAssists players + 1 := by
  cases hf1 : players.find? (fun p => p.name == e.scorer) with
  | none => exact absurd h (by simp [update_stats_event, htype, hf1])
  | some q1 =>
    cases hf2 : (updateFirst (fun p => p.name == e.scorer) incrGoals players).find?
        (fun p => p.name == e.assist) with
    | none => exact absurd h (by simp [update_stats_event, htype, hf1, hf2])
    | some q2 =>
      have hps : players' = updateFirst (fun p => p.name == e.assist) incrAssists
          (updateFirst (fun p => p.name == e.scorer) incrGoals players) := by
        have h' := h
        simp only [update_stats_event, htype, beq_self_eq_true, if_true, hf1, hf2,
          Option.some.injEq] at h'
        exact h'.symm
      subst hps
      have hmem1 := List.mem_of_find?_eq_some hf1
      have hpred1 := List.find?_some hf1
      have hmem2 := List.mem_of_find?_eq_some hf2
      have hpred2 := List.find?_some hf2
      have hex1 : ∃ x ∈ players, (fun p => p.name == e.scorer) x = true :=
        ⟨q1, hmem1, hpred1⟩
      have hex2 : ∃ x ∈ updateFirst (fun p => p.name == e.scorer) incrGoals players,
          (fun p => p.name == e.assist) x = true :=
        ⟨q2, hmem2, hpred2⟩
      constructor
      · rw [sumGoals_updateFirst_incrAssists]
        exact sumGoals_updateFirst_incrGoals hex1
      · rw [sumAssists_updateFirst_incrAssists hex2,
          sumAssists_updateFirst_incrGoals]

/-- Helper: a committed list of goal events adds its length to both totals. -/
theorem update_stats_sums {evs : List MatchEvent} :
    ∀ {players players' : List Player},
      (∀ e ∈ evs, e.type = "goal") →
      update_stats players evs = some players' →
      sumGoals players' = sumGoals players + evs.length ∧
      sumAssists players' = sumAssists players + evs.length := by
  induction evs with
  | nil =>
    intro players players' _ h
    simp only [update_stats, Option.some.injEq] at h
    subst h
    simp
  | cons e evs ih =>
    intro players players' hall h
    cases he : update_stats_event players e with
    | none => exact absurd h (by simp [update_stats, he])
    | some ps1 =>
      have h' : update_stats ps1 evs = some players' := by
        have h2 := h
        simp only [update_stats, he] at h2
        exact h2
      obtain ⟨hg1, ha1⟩ := update_stats_event_sums (hall e (List.mem_cons_self e evs)) he
      obtain ⟨hg2, ha2⟩ := ih (fun e' he' => hall e' (List.mem_cons_of_mem e he')) h'
      refine ⟨?_, ?_⟩ <;> simp only [List.length_cons] <;> omega

/-- C8: committing a match result whose events are `k` home-side and `m`
away-side goal events, each naming a scorer and assist resolvable by exact
name (success of the fold means every bare `next` lookup succeeded), raises
the total of all players' `goals` fields by exactly `k + m` and the total of
all `assists` fields by exactly `k + m`. In the embedding, `update_stats` is
the match engine's only state mutation — strength calculation and event
generation are pure functions of the league data and the draws. -/
theorem c8_update_stats_totals (players players' : List Player)
    (hevs aevs : List MatchEvent)
    (hall : ∀ e ∈ hevs ++ aevs, e.type = "goal")
    (h : update_stats players (hevs ++ aevs) = some players') :
    sumGoals players' = sumGoals players + (hevs.length + aevs.length) ∧
    sumAssists players' = sumAssists players + (hevs.length + aevs.length) := by
  have hres := update_stats_sums hall h
  rwa [List.length_append] at hres

/-- C8, witness: committing one home and one away goal event on the
two-a-side league adds 2 to each total. -/
theorem c8_witness :
    sumGoals pairPlayersAfter = sumGoals pairLeague.players + (1 + 1) ∧
    sumAssists pairPlayersAfter = sumAssists pairLeague.players + (1 + 1) :=
  c8_update_stats_totals pairLeague.players pairPlayersAfter
    pairHomeEvents pairAwayEvents (by decide) (by decide)

/-- C9: `calculate_player_efficiency` fails with NotFound when no player
matches the lowered name; on a found player with `minutes_played = 0` it
fails with division-by-zero semantics — the first per-90 division raises
before any value is produced, and the embedding (like Python's exception)
yields a typed error, never a NaN or infinity; otherwise it returns the four
metrics, with `shots_conversion` the stated ratio when `shots_on_target > 0`
and exactly 0 when `shots_on_target = 0`. -/
theorem c9_player_efficiency (d : LeagueData) (nm : String) :
    (findPlayer d nm = none →
      calculate_player_efficiency d nm = .error .playerNotFound) ∧
    (∀ p, findPlayer d nm = some p → p.stats.minutes_played = 0 →
      calculate_player_efficiency d nm = .error .zeroDivision) ∧
    (∀ p, findPlayer d nm = some p → p.stats.minutes_played ≠ 0 →
      calculate_player_efficiency d nm = .ok
        { goals_per_90 := (p.stats.goals : ℚ) / p.stats.minutes_played * 90,
          assists_per_90 := (p.stats.assists : ℚ) / p.stats.minutes_played * 90,
          goal_contributions := p.stats.goals + p.stats.assists,
          shots_conversion := if p.stats.shots_on_target > 0 then
            (p.stats.goals : ℚ) / p.stats.shots_on_target * 100 else 0 }) := by
  refine ⟨fun h0 => ?_, fun p hp hm => ?_, fun p hp hm => ?_⟩
  · simp [calculate_player_efficiency, h0]
  · simp [calculate_player_efficiency, hp, hm]
  · simp [calculate_player_efficiency, hp, hm]

/-- C9, witness: the zero-minutes player `"P1"` fails with the division
error; `bob` (90 minutes, no goals, no shots) yields the all-zero metrics. -/
theorem c9_witness :
    calculate_player_efficiency egLeague "p1" = .error .zeroDivision ∧
    calculate_player_efficiency egMarket.data "BOB" = .ok
      { goals_per_90 := 0, assists_per_90 := 0, goal_contributions := 0,
        shots_conversion := 0 } := by
  constructor
  · exact (c9_player_efficiency egLeague "p1").2.1 (trioPlayer "P1" 70)
      (by decide) (by decide)
  · have h := (c9_player_efficiency egMarket.data "BOB").2.2 bob (by decide)
      (by decide)
    rw [h]
    congr 1
    simp [bob]

end FootballManager
